import Mathlib

/-!
# Formal model of the FurnitureIntelligence layout generation and placement engine

Shallow embedding of the layout generation pipeline
(utils/layout_generator.py) and of the grid-based furniture placement
engine (utils/visualization.py).

Conventions of the embedding:
* Room dimensions, furniture dimensions and areas are modelled as exact
  rationals; the decimal literals of the source are taken at their exact
  decimal value.
* Prices are computed in the source as int(base_price * multiplier) on
  IEEE-754 double-precision floats.  Because the double rounding is
  observable in the prices (for the multiplier 1.15 the double product
  can fall just below the exact product), the price computation is
  modelled bit-faithfully: a decimal literal is rounded to the nearest
  binary64 value (round-to-nearest, ties-to-even), the int*float product
  is rounded the same way, and int() truncates.  All values involved are
  positive and lie well inside the normal binary64 range, so the
  simplified normal-range rounding below is exact for them.
* Python lists become List, dicts with a fixed key set become structures,
  the numpy occupancy grid becomes the finite set of its occupied cells.
* All functions are total, as the source is: every table lookup has an
  explicit default.
-/

open scoped List

/-! ## Bit-faithful model of the binary64 price arithmetic -/

/-- Fuel-based floor of the base-2 logarithm (structural recursion so that
kernel reduction works); log2fuel fuel n computes the floor of log2 n
whenever fuel is at least that value, in particular for fuel = n. -/
def log2fuel : ℕ → ℕ → ℕ
  | 0, _ => 0
  | fuel + 1, n => if n < 2 then 0 else log2fuel fuel (n / 2) + 1

/-- Floor of the base-2 logarithm of a natural number (0 for 0). -/
def floorLog2 (n : ℕ) : ℕ := log2fuel n n

/-- A nonnegative dyadic rational, the value being m / 2 ^ s for a pair
(m, s).  Every positive binary64 value of exponent at most 0 has this
form; all floats appearing in the price tables do. -/
abbrev Dyadic := ℕ × ℕ

/-- Rational value of a dyadic pair. -/
def dyVal (d : Dyadic) : ℚ := (d.1 : ℚ) / 2 ^ d.2

/-- Round the positive rational num / den to the nearest binary64 value
(round-to-nearest, ties-to-even), returned as a dyadic pair with 53
significant bits.  Exact for 1 ≤ num / den < 2 ^ 53, which covers every
style multiplier and every base-price * multiplier product of the source
tables; below 1 it keeps 52 fraction bits, which is finer than binary64
only (never coarser), and no such input occurs here. -/
def rne53 (num den : ℕ) : Dyadic :=
  let e := floorLog2 (num / den)
  let s := 52 - e
  let scaled := num * 2 ^ s
  let fl := scaled / den
  let r2 := 2 * (scaled % den)
  let m := if den < r2 then fl + 1 else if r2 < den then fl else if fl % 2 = 0 then fl else fl + 1
  (m, s)

/-- The binary64 value denoted by a positive decimal literal num / den
(Python parses float literals with round-to-nearest, ties-to-even). -/
def ofDecimal (num den : ℕ) : Dyadic := rne53 num den

/-- Binary64 product of an exactly representable natural number (every
base price is below 2 ^ 53) and a dyadic float: the exact product
b * m / 2 ^ s rounded to the nearest binary64 value. -/
def dyMulNat (b : ℕ) (d : Dyadic) : Dyadic := rne53 (b * d.1) (2 ^ d.2)

/-- Python int() applied to a nonnegative float: truncation toward zero,
which for a nonnegative dyadic m / 2 ^ s is the natural division. -/
def dyToInt (d : Dyadic) : ℕ := d.1 / 2 ^ d.2

/-! ## Data model -/

/-- Furniture dimensions in meters (the dict returned by
get_furniture_dimensions). -/
structure Dimensions where
  length : ℚ
  width : ℚ
deriving DecidableEq

/-- An instantiated furniture item (the dict built by
generate_furniture_item). -/
structure FurnitureItem where
  type : String
  price : ℕ
  style : String
  dimensions : Dimensions
deriving DecidableEq

/-- A furniture requirement entry of the catalog
(get_furniture_requirements). -/
structure Requirement where
  type : String
  priority : ℕ
  min_area : ℚ
deriving DecidableEq

/-- One layout option (the dict built by generate_room_layout). -/
structure Layout where
  id : ℕ
  furniture : List FurnitureItem
  cost : ℕ
  description : String
  features : List String
deriving DecidableEq

instance : Inhabited Layout := ⟨⟨0, [], 0, "", []⟩⟩

/-- One recommendation entry (description, cost, features). -/
structure Recommendation where
  description : String
  cost : ℕ
  features : List String
deriving DecidableEq

/-- The dict returned by generate_layout_suggestions. -/
structure LayoutResult where
  layout_options : List Layout
  recommendations : List Recommendation
deriving DecidableEq

/-! ## layout_generator.py -/

/-- Requirement catalog: requirements.get(room_type, []) over the literal
dict of the source. -/
def get_furniture_requirements (room_type : String) : List Requirement :=
  match room_type with
  | "Living Room" =>
      [⟨"sofa", 1, 2.0⟩, ⟨"coffee_table", 2, 0.6⟩, ⟨"tv_stand", 2, 1.0⟩, ⟨"armchair", 3, 0.8⟩]
  | "Bedroom" =>
      [⟨"bed", 1, 3.5⟩, ⟨"wardrobe", 1, 1.2⟩, ⟨"nightstand", 2, 0.2⟩]
  | "Home Office" =>
      [⟨"desk", 1, 1.2⟩, ⟨"office_chair", 1, 0.4⟩, ⟨"bookshelf", 2, 0.8⟩]
  | "Dining Room" =>
      [⟨"dining_table", 1, 2.0⟩, ⟨"chairs", 1, 0.4⟩, ⟨"sideboard", 2, 1.0⟩]
  | "Kitchen" =>
      [⟨"counter", 1, 2.0⟩, ⟨"storage", 1, 1.5⟩, ⟨"dining_set", 2, 1.2⟩]
  | _ => []

/-- Style multiplier table: style_multipliers.get(style, 1.0).  Each float
literal of the source is recorded as the exact decimal it denotes, as a
numerator / denominator pair: 1.2, 1.1, 1.0, 1.3, 1.15, default 1.0.
Its binary64 value is ofDecimal of the pair. -/
def style_multipliers (style : String) : ℕ × ℕ :=
  match style with
  | "Modern" => (12, 10)
  | "Traditional" => (11, 10)
  | "Minimalist" => (10, 10)
  | "Scandinavian" => (13, 10)
  | "Industrial" => (115, 100)
  | _ => (10, 10)

/-- Base price table: base_prices.get(type, 300). -/
def base_prices (furniture_type : String) : ℕ :=
  match furniture_type with
  | "sofa" => 1000
  | "coffee_table" => 200
  | "tv_stand" => 300
  | "armchair" => 400
  | "bed" => 800
  | "wardrobe" => 600
  | "nightstand" => 100
  | "desk" => 400
  | "office_chair" => 200
  | "bookshelf" => 300
  | "dining_table" => 600
  | "chairs" => 150
  | "sideboard" => 400
  | "counter" => 800
  | "storage" => 500
  | "dining_set" => 700
  | _ => 300

/-- Dimension table: dimensions.get(type, {length: 1.0, width: 1.0}). -/
def get_furniture_dimensions (furniture_type : String) : Dimensions :=
  match furniture_type with
  | "sofa" => ⟨2.0, 0.9⟩
  | "coffee_table" => ⟨0.9, 0.6⟩
  | "tv_stand" => ⟨1.5, 0.5⟩
  | "armchair" => ⟨0.8, 0.8⟩
  | "bed" => ⟨2.0, 1.6⟩
  | "wardrobe" => ⟨1.2, 0.6⟩
  | "nightstand" => ⟨0.4, 0.4⟩
  | "desk" => ⟨1.2, 0.6⟩
  | "office_chair" => ⟨0.6, 0.6⟩
  | "bookshelf" => ⟨0.8, 0.3⟩
  | "dining_table" => ⟨1.6, 0.9⟩
  | "chairs" => ⟨0.5, 0.5⟩
  | "sideboard" => ⟨1.2, 0.4⟩
  | "counter" => ⟨2.0, 0.6⟩
  | "storage" => ⟨1.0, 0.6⟩
  | "dining_set" => ⟨1.2, 1.2⟩
  | _ => ⟨1.0, 1.0⟩

/-- generate_furniture_item: price = int(base_price * multiplier) in
binary64 arithmetic, dimensions from the dimension table. -/
def generate_furniture_item (requirement : Requirement) (style : String) : FurnitureItem :=
  let m := style_multipliers style
  let multiplier := ofDecimal m.1 m.2
  let base_price := base_prices requirement.type
  { type := requirement.type
    price := dyToInt (dyMulNat base_price multiplier)
    style := style
    dimensions := get_furniture_dimensions requirement.type }

/-- The selection loop of generate_room_layout: walk the requirements in
catalog order, and whenever available_area is at least the minimum area of
the entry, instantiate it, keep it and subtract the minimum area.
Returns the furniture list together with the accumulated cost. -/
def add_required_furniture (style : String) : List Requirement → ℚ → List FurnitureItem × ℕ
  | [], _ => ([], 0)
  | item :: rest, available_area =>
    if available_area ≥ item.min_area then
      let furniture_item := generate_furniture_item item style
      let res := add_required_furniture style rest (available_area - item.min_area)
      (furniture_item :: res.1, furniture_item.price + res.2)
    else
      add_required_furniture style rest available_area

/-- Style description table: descriptions.get(style, default). -/
def layout_descriptions (style : String) : String :=
  match style with
  | "Modern" => "Clean lines and contemporary pieces create a sophisticated space"
  | "Traditional" => "Classic furniture arrangement for timeless appeal"
  | "Minimalist" => "Essential pieces arranged for maximum functionality"
  | "Scandinavian" => "Light and airy layout with functional Nordic design"
  | "Industrial" => "Raw and refined elements combine for an urban feel"
  | _ => "Balanced and functional layout"

/-- generate_layout_description: the f-string of the source. -/
def generate_layout_description (layout : Layout) (style room_type : String) : String :=
  layout_descriptions style ++ " in this " ++ room_type.toLower ++ ". Featuring " ++
    toString layout.furniture.length ++ " carefully selected pieces " ++
    "with an estimated total cost of $" ++ toString layout.cost ++ "."

/-- Style feature table: style_features.get(style, default pair). -/
def style_features_table (style : String) : List String :=
  match style with
  | "Modern" => ["Contemporary materials", "Minimal ornamentation", "Bold geometric shapes"]
  | "Traditional" => ["Classic patterns", "Symmetrical arrangement", "Rich textures"]
  | "Minimalist" => ["Clean spaces", "Functional design", "Neutral colors"]
  | "Scandinavian" => ["Light woods", "Natural materials", "Bright spaces"]
  | "Industrial" => ["Raw materials", "Open layout", "Metallic accents"]
  | _ => ["Balanced design", "Functional layout"]

/-- generate_layout_features: style features, then the three conditional
tags (list length of the furniture types, then the if / elif on cost). -/
def generate_layout_features (layout : Layout) (style : String) : List String :=
  style_features_table style ++
    (if 3 ≤ (layout.furniture.map (fun item => item.type)).length
      then ["Complete room setup"] else []) ++
    (if layout.cost < 2000 then ["Budget-friendly selection"]
      else if 5000 < layout.cost then ["Premium quality pieces"] else [])

/-- generate_room_layout: three layout options with ids 1, 2, 3, each
built by the same selection pass over available_area = area * 0.7. -/
def generate_room_layout (area : ℚ) (room_type style : String)
    (furniture_requirements : List Requirement) : List Layout :=
  (List.range 3).map (fun i =>
    let available_area := area * 0.7
    let sel := add_required_furniture style furniture_requirements available_area
    let base : Layout :=
      { id := i + 1, furniture := sel.1, cost := sel.2, description := "", features := [] }
    { base with
        description := generate_layout_description base style room_type
        features := generate_layout_features base style })

/-- filter_by_budget: keep the layouts with min_budget ≤ cost ≤ max_budget. -/
def filter_by_budget (layouts : List Layout) (budget : ℚ × ℚ) : List Layout :=
  layouts.filter (fun layout =>
    decide (budget.1 ≤ (layout.cost : ℚ) ∧ (layout.cost : ℚ) ≤ budget.2))

/-- Modelled from the spec: the function generate_recommendations is
called by generate_layout_suggestions but its definition is not among the
source files.  Spec section 4.6 specifies it as a direct field projection,
an ordered sequence of (description, cost, features) records over all
filtered options, the style and the opaque feature summary being unused
context. -/
def generate_recommendations {α : Type} (filtered_suggestions : List Layout)
    (_style : String) (_features : α) : List Recommendation :=
  filtered_suggestions.map (fun layout =>
    { description := layout.description, cost := layout.cost, features := layout.features })

/-- generate_layout_suggestions: area, catalog lookup, generation, budget
filtering, recommendations.  The height and the feature summary do not
influence the result. -/
def generate_layout_suggestions {α : Type} (length width _height : ℚ)
    (room_type style : String) (budget : ℚ × ℚ) (features : α) : LayoutResult :=
  let area := length * width
  let furniture_requirements := get_furniture_requirements room_type
  let layout_options := generate_room_layout area room_type style furniture_requirements
  let filtered_suggestions := filter_by_budget layout_options budget
  let recommendations := generate_recommendations filtered_suggestions style features
  { layout_options := filtered_suggestions, recommendations := recommendations }

/-! ## visualization.py: the placement engine -/

/-- A cell of the occupancy grid, as (column, row). -/
abbrev Cell := ℕ × ℕ

/-- grid_size = 0.5 meters. -/
def grid_size : ℚ := 0.5

/-- int(q / grid_size): floor division of a nonnegative length by the grid
size (Python int() truncates toward zero, which is the floor for the
nonnegative dimensions of the data model). -/
def cellCount (q : ℚ) : ℕ := (⌊q / grid_size⌋).toNat

/-- The set of grid cells of the block of size cols * rows whose lower
left cell is (x, y): the slice [y : y + rows, x : x + cols] of the grid. -/
def blockCells (x y cols rows : ℕ) : Finset Cell :=
  Finset.Ico x (x + cols) ×ˢ Finset.Ico y (y + rows)

/-- The scan order of find_furniture_position: y from 0 to
rows - itemRows, x from 0 to cols - itemCols, y in the outer loop (both
Python ranges are empty when the item exceeds the grid, which the
truncated subtraction reproduces). -/
def scanPositions (rows cols itemCols itemRows : ℕ) : List Cell :=
  (List.range (rows + 1 - itemRows)).flatMap (fun y =>
    (List.range (cols + 1 - itemCols)).map (fun x => (x, y)))

/-- find_furniture_position: the first scanned (x, y) whose block does not
meet the occupied set, if any. -/
def find_furniture_position (occupancy_grid : Finset Cell)
    (rows cols itemCols itemRows : ℕ) : Option Cell :=
  (scanPositions rows cols itemCols itemRows).find? (fun p =>
    decide (blockCells p.1 p.2 itemCols itemRows ∩ occupancy_grid = ∅))

/-- A successful placement of one item: the item together with the grid
coordinates and the cell extent of the block carved for it. -/
structure Placement where
  item : FurnitureItem
  x : ℕ
  y : ℕ
  cols : ℕ
  rows : ℕ
deriving DecidableEq

/-- The grid cells carved for a placement. -/
def Placement.block (p : Placement) : Finset Cell := blockCells p.x p.y p.cols p.rows

/-- The placement loop of position_furniture: for each item in the given
order, find a position; on success mark the block occupied and emit the
placement, otherwise silently drop the item. -/
def placeAux (rows cols : ℕ) : List FurnitureItem → Finset Cell → List Placement
  | [], _ => []
  | item :: rest, occupancy_grid =>
    let itemCols := cellCount item.dimensions.length
    let itemRows := cellCount item.dimensions.width
    match find_furniture_position occupancy_grid rows cols itemCols itemRows with
    | some pos =>
        ⟨item, pos.1, pos.2, itemCols, itemRows⟩ ::
          placeAux rows cols rest (occupancy_grid ∪ blockCells pos.1 pos.2 itemCols itemRows)
    | none => placeAux rows cols rest occupancy_grid

/-- Footprint area of an item, the sort key of position_furniture. -/
def item_area (item : FurnitureItem) : ℚ :=
  item.dimensions.length * item.dimensions.width

/-- The comparator realizing sorted(furniture, key = area, reverse = True):
a before b exactly when the area of a is at least the area of b; with a
stable sort this reproduces the Python ordering including ties. -/
def furniture_sort_le (a b : FurnitureItem) : Bool :=
  decide (item_area b ≤ item_area a)

/-- A furniture item extended with its assigned position in meters (the
copied dict with the added position key). -/
structure PositionedItem where
  item : FurnitureItem
  position : ℚ × ℚ
deriving DecidableEq

/-- position_furniture: build the occupancy grid from the room size, sort
by area descending (stably), place each item first-fit, and return the
placed items with their positions in meters. -/
def position_furniture (furniture : List FurnitureItem)
    (room_length room_width : ℚ) : List PositionedItem :=
  let grid_length := cellCount room_length
  let grid_width := cellCount room_width
  let sorted_furniture := furniture.mergeSort furniture_sort_le
  (placeAux grid_width grid_length sorted_furniture ∅).map (fun p =>
    { item := p.item, position := ((p.x : ℚ) * grid_size, (p.y : ℚ) * grid_size) })

/-! ## Helper lemmas -/

/-- Nat.floor of b * (n / d) over ℚ is the natural division b * n / d. -/
lemma nat_floor_mul_div (b n d : ℕ) :
    ⌊((b : ℚ) * ((n : ℚ) / (d : ℚ)))⌋₊ = b * n / d := by
  rw [mul_div_assoc']
  rw [show ((b : ℚ) * n) = ((b * n : ℕ) : ℚ) by push_cast; ring]
  exact Nat.floor_div_nat _ _

/-- The style multiplier is always one of the five table values or the
default. -/
lemma style_multipliers_mem (style : String) :
    style_multipliers style ∈ ([(12, 10), (11, 10), (10, 10), (13, 10), (115, 100)] : List (ℕ × ℕ)) := by
  unfold style_multipliers
  split <;> simp

/-- The base price is always one of the table values or the default 300. -/
lemma base_prices_mem (furniture_type : String) :
    base_prices furniture_type ∈ ([1000, 200, 300, 400, 800, 600, 100, 150, 700, 500] : List ℕ) := by
  unfold base_prices
  split <;> simp

/-- A nonnegative length strictly below the grid size yields zero cells. -/
lemma cellCount_eq_zero {q : ℚ} (h0 : 0 ≤ q) (h1 : q < grid_size) : cellCount q = 0 := by
  have hpos : (0 : ℚ) < grid_size := by norm_num [grid_size]
  have : ⌊q / grid_size⌋ = 0 := by
    rw [Int.floor_eq_zero_iff]
    constructor
    · exact div_nonneg h0 hpos.le
    · exact (div_lt_one hpos).mpr h1
  simp [cellCount, this]

/-! ## C2: total pipeline on valid input -/

/-- C2: for every valid input (positive dimensions, one of the five
supported room types and styles, a budget pair with min at most max, any
feature-summary value) generate_layout_suggestions is a total function
whose result carries exactly the budget-filtered layout options together
with the recommendation list projecting description, cost and features
from them.  (The totality hypotheses are recorded as stated by the claim;
the embedding is total on all inputs because every lookup defaults.) -/
theorem claim_C2 {α : Type} (room_length room_width room_height : ℚ)
    (room_type style : String) (bmin bmax : ℚ) (features : α)
    (hlen : 0 < room_length) (hwid : 0 < room_width) (hhgt : 0 < room_height)
    (hroom : room_type ∈ ["Living Room", "Bedroom", "Home Office", "Dining Room", "Kitchen"])
    (hstyle : style ∈ ["Modern", "Traditional", "Minimalist", "Scandinavian", "Industrial"])
    (hbudget : bmin ≤ bmax) :
    (generate_layout_suggestions room_length room_width room_height room_type style
        (bmin, bmax) features).layout_options =
      filter_by_budget
        (generate_room_layout (room_length * room_width) room_type style
          (get_furniture_requirements room_type)) (bmin, bmax) ∧
    (generate_layout_suggestions room_length room_width room_height room_type style
        (bmin, bmax) features).recommendations =
      (generate_layout_suggestions room_length room_width room_height room_type style
          (bmin, bmax) features).layout_options.map (fun layout =>
        { description := layout.description, cost := layout.cost, features := layout.features }) :=
  ⟨rfl, rfl⟩

/-- Witness for C2 at a concrete valid input. -/
theorem claim_C2_witness :
    (0 : ℚ) < 5 ∧ (0 : ℚ) < 4 ∧ (0 : ℚ) < 5/2 ∧
    "Bedroom" ∈ ["Living Room", "Bedroom", "Home Office", "Dining Room", "Kitchen"] ∧
    "Modern" ∈ ["Modern", "Traditional", "Minimalist", "Scandinavian", "Industrial"] ∧
    (2000 : ℚ) ≤ 5000 ∧
    ((generate_layout_suggestions (5 : ℚ) 4 (5/2) "Bedroom" "Modern"
        ((2000 : ℚ), (5000 : ℚ)) ()).layout_options =
      filter_by_budget
        (generate_room_layout ((5 : ℚ) * 4) "Bedroom" "Modern"
          (get_furniture_requirements "Bedroom")) ((2000 : ℚ), (5000 : ℚ)) ∧
    (generate_layout_suggestions (5 : ℚ) 4 (5/2) "Bedroom" "Modern"
        ((2000 : ℚ), (5000 : ℚ)) ()).recommendations =
      (generate_layout_suggestions (5 : ℚ) 4 (5/2) "Bedroom" "Modern"
          ((2000 : ℚ), (5000 : ℚ)) ()).layout_options.map (fun layout =>
        { description := layout.description, cost := layout.cost, features := layout.features })) :=
  ⟨by norm_num, by norm_num, by norm_num, by simp, by simp, by norm_num,
    claim_C2 5 4 (5/2) "Bedroom" "Modern" 2000 5000 () (by norm_num) (by norm_num)
      (by norm_num) (by simp) (by simp) (by norm_num)⟩

/-! ## C5: the budget filter -/

/-- C5: the budget filter returns an order-preserving subsequence of its
input, and an option is in the result exactly when its cost lies in the
inclusive budget range. -/
theorem claim_C5 (layouts : List Layout) (bmin bmax : ℚ) :
    List.Sublist (filter_by_budget layouts (bmin, bmax)) layouts ∧
    ∀ layout : Layout, layout ∈ filter_by_budget layouts (bmin, bmax) ↔
      (layout ∈ layouts ∧ bmin ≤ (layout.cost : ℚ) ∧ (layout.cost : ℚ) ≤ bmax) := by
  constructor
  · exact List.filter_sublist layouts
  · intro layout
    simp [filter_by_budget, List.mem_filter, and_assoc]

/-- Witness for C5 at a concrete input (a two-element list of which only
the first is in range, and which is kept in order). -/
theorem claim_C5_witness :
    List.Sublist (filter_by_budget [⟨1, [], 1800, "a", []⟩, ⟨2, [], 9000, "b", []⟩] ((1000 : ℚ), (5000 : ℚ)))
      [⟨1, [], 1800, "a", []⟩, ⟨2, [], 9000, "b", []⟩] ∧
    (⟨1, [], 1800, "a", []⟩ ∈ filter_by_budget [⟨1, [], 1800, "a", []⟩, ⟨2, [], 9000, "b", []⟩]
        ((1000 : ℚ), (5000 : ℚ)) ↔
      (⟨1, [], 1800, "a", []⟩ ∈ [(⟨1, [], 1800, "a", []⟩ : Layout), ⟨2, [], 9000, "b", []⟩] ∧
        (1000 : ℚ) ≤ ((1800 : ℕ) : ℚ) ∧ ((1800 : ℕ) : ℚ) ≤ 5000)) :=
  ⟨(claim_C5 [⟨1, [], 1800, "a", []⟩, ⟨2, [], 9000, "b", []⟩] 1000 5000).1,
    (claim_C5 [⟨1, [], 1800, "a", []⟩, ⟨2, [], 9000, "b", []⟩] 1000 5000).2 _⟩

/-! ## C8: the candidate generator returns three identical options -/

/-- C8: the candidate generator always returns exactly 3 options with ids
1, 2, 3, pairwise identical in furniture, cost, description and features
(the embedding is a pure function of its arguments, so two calls with
identical inputs are definitionally equal: there is no hidden
randomness). -/
theorem claim_C8 (area : ℚ) (room_type style : String) (reqs : List Requirement) :
    (generate_room_layout area room_type style reqs).length = 3 ∧
    (generate_room_layout area room_type style reqs).map (fun layout => layout.id) = [1, 2, 3] ∧
    ((generate_room_layout area room_type style reqs).map (fun layout =>
        (layout.furniture, layout.cost, layout.description, layout.features))).Pairwise (· = ·) := by
  refine ⟨?_, ?_, ?_⟩ <;>
    simp [generate_room_layout, show List.range 3 = [0, 1, 2] from rfl,
      generate_layout_description, generate_layout_features]

/-- Witness for C8 at a concrete input. -/
theorem claim_C8_witness :
    (generate_room_layout 20 "Bedroom" "Modern" (get_furniture_requirements "Bedroom")).length = 3 ∧
    (generate_room_layout 20 "Bedroom" "Modern" (get_furniture_requirements "Bedroom")).map
      (fun layout => layout.id) = [1, 2, 3] :=
  ⟨(claim_C8 20 "Bedroom" "Modern" (get_furniture_requirements "Bedroom")).1,
    (claim_C8 20 "Bedroom" "Modern" (get_furniture_requirements "Bedroom")).2.1⟩

/-! ## C4: the price formula -/

/-- C4 (amended): the price of an instantiated item is the binary64
computation int(float(basePrice) * float(styleMultiplier)), and its
dimensions come from the dimension table independently of style; this
price equals the exact floor(basePrice * styleMultiplier) for every
(type, style) pair EXCEPT when the style multiplier is the literal 1.15
(style "Industrial") and the base price is one of 100, 200, 400, 700,
800, where the binary64 product falls one ulp short of the exact integer
product and int() truncates to one less than the floor. -/
theorem claim_C4 (requirement : Requirement) (style : String) :
    (generate_furniture_item requirement style).price =
      dyToInt (dyMulNat (base_prices requirement.type)
        (ofDecimal (style_multipliers style).1 (style_multipliers style).2)) ∧
    (generate_furniture_item requirement style).dimensions =
      get_furniture_dimensions requirement.type ∧
    ((generate_furniture_item requirement style).price =
        ⌊(base_prices requirement.type : ℚ) *
          (((style_multipliers style).1 : ℚ) / ((style_multipliers style).2 : ℚ))⌋₊ ↔
      ¬(style_multipliers style = (115, 100) ∧
        base_prices requirement.type ∈ ({100, 200, 400, 700, 800} : Finset ℕ))) := by
  refine ⟨rfl, rfl, ?_⟩
  have hm := style_multipliers_mem style
  have hb := base_prices_mem requirement.type
  show dyToInt (dyMulNat (base_prices requirement.type)
      (ofDecimal (style_multipliers style).1 (style_multipliers style).2)) = _ ↔ _
  generalize hM : style_multipliers style = M at hm ⊢
  generalize hB : base_prices requirement.type = B at hb ⊢
  rw [nat_floor_mul_div]
  fin_cases hm <;> fin_cases hb <;> decide

/-- Counterexample for C4 as stated: for type armchair and style
Industrial the code computes int(400 * 1.15) = 459 on binary64 floats,
while floor(400 * 1.15) = 460. -/
theorem claim_C4_counterexample :
    (generate_furniture_item ⟨"armchair", 3, 0.8⟩ "Industrial").price = 459 ∧
    ⌊(base_prices "armchair" : ℚ) * (((style_multipliers "Industrial").1 : ℚ) /
        ((style_multipliers "Industrial").2 : ℚ))⌋₊ = 460 ∧
    (459 : ℕ) ≠ 460 := by
  refine ⟨by decide, ?_, by decide⟩
  rw [nat_floor_mul_div]
  decide

/-! ## C3: the concrete Bedroom / Modern scenario -/

/-- Binary64 price of a Modern bed: int(800 * 1.2) = 960 (the price does
not depend on the priority or the minimum area of the requirement). -/
lemma price_bed_modern (p : ℕ) (a : ℚ) :
    (generate_furniture_item ⟨"bed", p, a⟩ "Modern").price = 960 := by
  show dyToInt (dyMulNat (base_prices "bed")
    (ofDecimal (style_multipliers "Modern").1 (style_multipliers "Modern").2)) = 960
  decide

/-- Binary64 price of a Modern wardrobe: int(600 * 1.2) = 720. -/
lemma price_wardrobe_modern (p : ℕ) (a : ℚ) :
    (generate_furniture_item ⟨"wardrobe", p, a⟩ "Modern").price = 720 := by
  show dyToInt (dyMulNat (base_prices "wardrobe")
    (ofDecimal (style_multipliers "Modern").1 (style_multipliers "Modern").2)) = 720
  decide

/-- Binary64 price of a Modern nightstand: int(100 * 1.2) = 120. -/
lemma price_nightstand_modern (p : ℕ) (a : ℚ) :
    (generate_furniture_item ⟨"nightstand", p, a⟩ "Modern").price = 120 := by
  show dyToInt (dyMulNat (base_prices "nightstand")
    (ofDecimal (style_multipliers "Modern").1 (style_multipliers "Modern").2)) = 120
  decide

/-- The selection pass for the Bedroom catalog with available area
5 * 4 * 0.7 = 14 admits all three archetypes in order, at cost 1800. -/
lemma bedroom_modern_selection :
    add_required_furniture "Modern" (get_furniture_requirements "Bedroom") ((5 : ℚ) * 4 * 0.7) =
      ([generate_furniture_item ⟨"bed", 1, 3.5⟩ "Modern",
        generate_furniture_item ⟨"wardrobe", 1, 1.2⟩ "Modern",
        generate_furniture_item ⟨"nightstand", 2, 0.2⟩ "Modern"], 1800) := by
  rw [show get_furniture_requirements "Bedroom" =
      [⟨"bed", 1, 3.5⟩, ⟨"wardrobe", 1, 1.2⟩, ⟨"nightstand", 2, 0.2⟩] from rfl]
  norm_num [add_required_furniture, price_bed_modern, price_wardrobe_modern,
    price_nightstand_modern]

/-- C3: for room type Bedroom, style Modern, length 5 and width 4, each of
the three generated layout options selects exactly bed, wardrobe and
nightstand in that order, at total cost 1800. -/
theorem claim_C3 :
    (generate_room_layout ((5 : ℚ) * 4) "Bedroom" "Modern"
        (get_furniture_requirements "Bedroom")).map (fun layout =>
      (layout.furniture.map (fun item => item.type), layout.cost)) =
    [(["bed", "wardrobe", "nightstand"], 1800),
     (["bed", "wardrobe", "nightstand"], 1800),
     (["bed", "wardrobe", "nightstand"], 1800)] := by
  simp [generate_room_layout, show List.range 3 = [0, 1, 2] from rfl,
    bedroom_modern_selection, generate_furniture_item]

/-! ## Placement engine lemmas -/

/-- Every placement emitted by the loop has a block disjoint from the
occupied set the loop started with (the block was found free, and the
occupied set only grows). -/
lemma mem_placeAux_disjoint (rows cols : ℕ) :
    ∀ (items : List FurnitureItem) (occ : Finset Cell) (e : Placement),
      e ∈ placeAux rows cols items occ → Disjoint e.block occ := by
  intro items
  induction items with
  | nil => intro occ e h; simp [placeAux] at h
  | cons item rest ih =>
    intro occ e h
    rw [placeAux] at h
    rcases hf : find_furniture_position occ rows cols
        (cellCount item.dimensions.length) (cellCount item.dimensions.width) with _ | pos
    · rw [hf] at h
      exact ih occ e h
    · rw [hf] at h
      rcases List.mem_cons.mp h with rfl | htail
      · have hp := List.find?_some hf
        rw [decide_eq_true_eq] at hp
        exact Finset.disjoint_iff_inter_eq_empty.mpr hp
      · have hd := ih (occ ∪ blockCells pos.1 pos.2
          (cellCount item.dimensions.length) (cellCount item.dimensions.width)) e htail
        exact (Finset.disjoint_union_right.mp hd).1

/-- C1 core: the blocks carved by the placement loop are pairwise
disjoint. -/
lemma placeAux_pairwise_disjoint (rows cols : ℕ) :
    ∀ (items : List FurnitureItem) (occ : Finset Cell),
      (placeAux rows cols items occ).Pairwise (fun p q => Disjoint p.block q.block) := by
  intro items
  induction items with
  | nil => intro occ; simp [placeAux]
  | cons item rest ih =>
    intro occ
    rw [placeAux]
    rcases hf : find_furniture_position occ rows cols
        (cellCount item.dimensions.length) (cellCount item.dimensions.width) with _ | pos
    · exact ih occ
    · refine List.Pairwise.cons ?_ (ih _)
      intro q hq
      have hd := mem_placeAux_disjoint rows cols rest
        (occ ∪ blockCells pos.1 pos.2
          (cellCount item.dimensions.length) (cellCount item.dimensions.width)) q hq
      exact ((Finset.disjoint_union_right.mp hd).2).symm

/-- The placed items, in order, form a sublist of the attempted items. -/
lemma placeAux_items_sublist (rows cols : ℕ) :
    ∀ (items : List FurnitureItem) (occ : Finset Cell),
      List.Sublist ((placeAux rows cols items occ).map (fun p => p.item)) items := by
  intro items
  induction items with
  | nil => intro occ; simp [placeAux]
  | cons item rest ih =>
    intro occ
    rw [placeAux]
    rcases hf : find_furniture_position occ rows cols
        (cellCount item.dimensions.length) (cellCount item.dimensions.width) with _ | pos
    · exact (ih occ).cons item
    · exact (ih _).cons₂ item

/-! ## C1: placed items occupy pairwise disjoint grid blocks -/

/-- C1: for every furniture list and positive room length and width, the
blocks carved by the placement loop underlying position_furniture are
pairwise disjoint: the grid-cell rectangles of two distinct placed items
never share a cell. -/
theorem claim_C1 (furniture : List FurnitureItem) (room_length room_width : ℚ)
    (hlen : 0 < room_length) (hwid : 0 < room_width) :
    (placeAux (cellCount room_width) (cellCount room_length)
        (furniture.mergeSort furniture_sort_le) ∅).Pairwise
      (fun p q => Disjoint p.block q.block) ∧
    position_furniture furniture room_length room_width =
      (placeAux (cellCount room_width) (cellCount room_length)
          (furniture.mergeSort furniture_sort_le) ∅).map (fun p =>
        { item := p.item, position := ((p.x : ℚ) * grid_size, (p.y : ℚ) * grid_size) }) :=
  ⟨placeAux_pairwise_disjoint _ _ _ _, rfl⟩

/-- Witness for C1 at a concrete input. -/
theorem claim_C1_witness :
    (0 : ℚ) < 5 ∧ (0 : ℚ) < 4 ∧
    (placeAux (cellCount (4 : ℚ)) (cellCount (5 : ℚ))
        ([⟨"sofa", 1200, "Modern", ⟨2.0, 0.9⟩⟩,
          ⟨"coffee_table", 240, "Modern", ⟨0.9, 0.6⟩⟩].mergeSort furniture_sort_le) ∅).Pairwise
      (fun p q => Disjoint p.block q.block) :=
  ⟨by norm_num, by norm_num,
    (claim_C1 [⟨"sofa", 1200, "Modern", ⟨2.0, 0.9⟩⟩, ⟨"coffee_table", 240, "Modern", ⟨0.9, 0.6⟩⟩]
      5 4 (by norm_num) (by norm_num)).1⟩

/-! ## C10: placement does not alter the input items -/

/-- C10: every positioned item returned by position_furniture carries,
unchanged, one of the input furniture records (extended with a position);
the input list itself is a value the pure function cannot alter, so
placement can be re-run on it.  The second conjunct states the stronger
order fact: the placed records are a sublist of the sorted input. -/
theorem claim_C10 (furniture : List FurnitureItem) (room_length room_width : ℚ) :
    ((position_furniture furniture room_length room_width).map (fun p => p.item)) ⊆ furniture ∧
    List.Sublist ((placeAux (cellCount room_width) (cellCount room_length)
        (furniture.mergeSort furniture_sort_le) ∅).map (fun p => p.item))
      (furniture.mergeSort furniture_sort_le) := by
  refine ⟨?_, placeAux_items_sublist _ _ _ _⟩
  intro a ha
  simp only [position_furniture, List.map_map, List.mem_map, Function.comp] at ha
  obtain ⟨p, hp, rfl⟩ := ha
  have hs := placeAux_items_sublist (cellCount room_width) (cellCount room_length)
    (furniture.mergeSort furniture_sort_le) ∅
  have : p.item ∈ furniture.mergeSort furniture_sort_le :=
    hs.subset (List.mem_map_of_mem (fun p => p.item) hp)
  exact List.mem_mergeSort.mp this

/-- Witness for C10 at a concrete input. -/
theorem claim_C10_witness :
    ((position_furniture [⟨"bed", 960, "Modern", ⟨2.0, 1.6⟩⟩] 5 4).map (fun p => p.item)) ⊆
      [⟨"bed", 960, "Modern", ⟨2.0, 1.6⟩⟩] :=
  (claim_C10 [⟨"bed", 960, "Modern", ⟨2.0, 1.6⟩⟩] 5 4).1

/-! ## C6: attempt order is a stable descending sort by footprint area -/

/-- The comparator is transitive. -/
lemma furniture_sort_le_trans (a b c : FurnitureItem) :
    furniture_sort_le a b → furniture_sort_le b c → furniture_sort_le a c := by
  simp only [furniture_sort_le, decide_eq_true_eq]
  intro hab hbc
  exact le_trans hbc hab

/-- The comparator is total. -/
lemma furniture_sort_le_total (a b : FurnitureItem) :
    furniture_sort_le a b || furniture_sort_le b a := by
  simp only [furniture_sort_le]
  rcases le_total (item_area a) (item_area b) with h | h
  · simp [h]
  · simp [h]

/-- C6: position_furniture attempts (and carves blocks for) the items in
the order of the stable descending sort by footprint area: the attempted
sequence is sorted by area descending, is a permutation of the input, and
two items of equal area keep their original relative order. -/
theorem claim_C6 (furniture : List FurnitureItem) (room_length room_width : ℚ) :
    position_furniture furniture room_length room_width =
      (placeAux (cellCount room_width) (cellCount room_length)
          (furniture.mergeSort furniture_sort_le) ∅).map (fun p =>
        { item := p.item, position := ((p.x : ℚ) * grid_size, (p.y : ℚ) * grid_size) }) ∧
    (furniture.mergeSort furniture_sort_le).Pairwise
      (fun a b => item_area b ≤ item_area a) ∧
    (furniture.mergeSort furniture_sort_le).Perm furniture ∧
    ∀ (a b : FurnitureItem), item_area a = item_area b →
      List.Sublist [a, b] furniture →
      List.Sublist [a, b] (furniture.mergeSort furniture_sort_le) := by
  refine ⟨rfl, ?_, List.mergeSort_perm furniture _, ?_⟩
  · have h := List.sorted_mergeSort
      furniture_sort_le_trans furniture_sort_le_total furniture
    exact h.imp (fun {a b} hab => by
      simpa [furniture_sort_le, decide_eq_true_eq] using hab)
  · intro a b hab hsub
    apply List.pair_sublist_mergeSort furniture_sort_le_trans furniture_sort_le_total
    · simp [furniture_sort_le, hab]
    · exact hsub

/-- Witness for C6 at a concrete input. -/
theorem claim_C6_witness :
    ([⟨"chairs", 165, "Modern", ⟨0.5, 0.5⟩⟩,
      ⟨"sofa", 1200, "Modern", ⟨2.0, 0.9⟩⟩].mergeSort furniture_sort_le).Perm
      [⟨"chairs", 165, "Modern", ⟨0.5, 0.5⟩⟩, ⟨"sofa", 1200, "Modern", ⟨2.0, 0.9⟩⟩] :=
  (claim_C6 [⟨"chairs", 165, "Modern", ⟨0.5, 0.5⟩⟩, ⟨"sofa", 1200, "Modern", ⟨2.0, 0.9⟩⟩]
    5 4).2.2.1

/-! ## C7: items thinner than one grid cell -/

/-- Evaluation of cellCount at integral multiples of the grid size. -/
lemma cellCount_eval (q : ℚ) (n : ℕ) (h : q / grid_size = (n : ℚ)) : cellCount q = n := by
  rw [cellCount, h, Int.floor_natCast, Int.toNat_natCast]

/-- C7 (amended): an item one of whose dimensions is nonnegative and
strictly below the 0.5 m grid size (so its grid-cell count in that
dimension is 0) is still attempted, its zero-sized block occupies no grid
cells and is trivially unoccupied, and PROVIDED its grid-cell count in
each dimension also fits within the grid, it is placed at the first
scanned position (0, 0) whatever the current occupancy.  (Without the fit
proviso the claim fails: an overlong scan range is empty and the item is
dropped, see the counterexample.) -/
theorem claim_C7 (item : FurnitureItem) (rest : List FurnitureItem)
    (occ : Finset Cell) (rows cols : ℕ)
    (hzero : (0 ≤ item.dimensions.length ∧ item.dimensions.length < grid_size) ∨
             (0 ≤ item.dimensions.width ∧ item.dimensions.width < grid_size))
    (hfitc : cellCount item.dimensions.length ≤ cols)
    (hfitr : cellCount item.dimensions.width ≤ rows) :
    placeAux rows cols (item :: rest) occ =
      ⟨item, 0, 0, cellCount item.dimensions.length, cellCount item.dimensions.width⟩ ::
        placeAux rows cols rest occ ∧
    blockCells 0 0 (cellCount item.dimensions.length) (cellCount item.dimensions.width) = ∅ := by
  have hblock : blockCells 0 0 (cellCount item.dimensions.length)
      (cellCount item.dimensions.width) = ∅ := by
    rcases hzero with ⟨h0, h1⟩ | ⟨h0, h1⟩
    · rw [cellCount_eq_zero h0 h1]
      simp [blockCells]
    · rw [cellCount_eq_zero h0 h1]
      simp [blockCells]
  have hfind : find_furniture_position occ rows cols (cellCount item.dimensions.length)
      (cellCount item.dimensions.width) = some (0, 0) := by
    obtain ⟨r1, hr1⟩ : ∃ k, rows + 1 - cellCount item.dimensions.width = k + 1 :=
      ⟨rows - cellCount item.dimensions.width, by omega⟩
    obtain ⟨c1, hc1⟩ : ∃ k, cols + 1 - cellCount item.dimensions.length = k + 1 :=
      ⟨cols - cellCount item.dimensions.length, by omega⟩
    rw [find_furniture_position, scanPositions, hr1, hc1, List.range_succ_eq_map,
      List.range_succ_eq_map, List.flatMap_cons, List.map_cons, List.cons_append]
    apply List.find?_cons_of_pos
    simp [hblock]
  refine ⟨?_, hblock⟩
  rw [placeAux, hfind]
  simp [hblock]

/-- Witness for C7 (amended) at a concrete input: a 1 m by 0.4 m item in
an empty 6-by-6-cell grid is placed at (0, 0) with an empty block. -/
theorem claim_C7_witness :
    (((0 : ℚ) ≤ (⟨"nightstand", 120, "Modern", ⟨1, 2/5⟩⟩ : FurnitureItem).dimensions.length ∧
        (⟨"nightstand", 120, "Modern", ⟨1, 2/5⟩⟩ : FurnitureItem).dimensions.length < grid_size) ∨
      ((0 : ℚ) ≤ (⟨"nightstand", 120, "Modern", ⟨1, 2/5⟩⟩ : FurnitureItem).dimensions.width ∧
        (⟨"nightstand", 120, "Modern", ⟨1, 2/5⟩⟩ : FurnitureItem).dimensions.width < grid_size)) ∧
    cellCount (⟨"nightstand", 120, "Modern", ⟨1, 2/5⟩⟩ : FurnitureItem).dimensions.length ≤ 6 ∧
    cellCount (⟨"nightstand", 120, "Modern", ⟨1, 2/5⟩⟩ : FurnitureItem).dimensions.width ≤ 6 ∧
    (placeAux 6 6 [⟨"nightstand", 120, "Modern", ⟨1, 2/5⟩⟩] ∅ =
      [⟨⟨"nightstand", 120, "Modern", ⟨1, 2/5⟩⟩, 0, 0,
        cellCount (⟨"nightstand", 120, "Modern", ⟨1, 2/5⟩⟩ : FurnitureItem).dimensions.length,
        cellCount (⟨"nightstand", 120, "Modern", ⟨1, 2/5⟩⟩ : FurnitureItem).dimensions.width⟩] ∧
      blockCells 0 0
        (cellCount (⟨"nightstand", 120, "Modern", ⟨1, 2/5⟩⟩ : FurnitureItem).dimensions.length)
        (cellCount (⟨"nightstand", 120, "Modern", ⟨1, 2/5⟩⟩ : FurnitureItem).dimensions.width) = ∅) := by
  have hz : ((0 : ℚ) ≤ (⟨"nightstand", 120, "Modern", ⟨1, 2/5⟩⟩ : FurnitureItem).dimensions.length ∧
        (⟨"nightstand", 120, "Modern", ⟨1, 2/5⟩⟩ : FurnitureItem).dimensions.length < grid_size) ∨
      ((0 : ℚ) ≤ (⟨"nightstand", 120, "Modern", ⟨1, 2/5⟩⟩ : FurnitureItem).dimensions.width ∧
        (⟨"nightstand", 120, "Modern", ⟨1, 2/5⟩⟩ : FurnitureItem).dimensions.width < grid_size) :=
    Or.inr ⟨by norm_num, by show (2 : ℚ)/5 < grid_size; norm_num [grid_size]⟩
  have hc : cellCount (⟨"nightstand", 120, "Modern", ⟨1, 2/5⟩⟩ : FurnitureItem).dimensions.length ≤ 6 := by
    have h2 : cellCount (1 : ℚ) = 2 := cellCount_eval 1 2 (by norm_num [grid_size])
    show cellCount (1 : ℚ) ≤ 6
    omega
  have hr : cellCount (⟨"nightstand", 120, "Modern", ⟨1, 2/5⟩⟩ : FurnitureItem).dimensions.width ≤ 6 := by
    have h0 : cellCount ((2 : ℚ)/5) = 0 :=
      cellCount_eq_zero (by norm_num) (by norm_num [grid_size])
    show cellCount ((2 : ℚ)/5) ≤ 6
    omega
  have h := claim_C7 ⟨"nightstand", 120, "Modern", ⟨1, 2/5⟩⟩ [] ∅ 6 6 hz hc hr
  refine ⟨hz, hc, hr, ?_, h.2⟩
  rw [h.1]
  simp [placeAux]

/-- Counterexample for C7 as stated: an item of width 0.4 m (below the
grid size, zero grid rows) and length 10 m, in a 3 m by 3 m room.  Its
zero-sized block at (0, 0) occupies no cell and is trivially unoccupied,
yet the item is not placed: the x scan range 6 - 20 + 1 is empty, so
position_furniture drops the item instead of placing it at (0, 0). -/
theorem claim_C7_counterexample :
    ((2 : ℚ)/5) < grid_size ∧
    blockCells 0 0 (cellCount (10 : ℚ)) (cellCount ((2 : ℚ)/5)) = ∅ ∧
    position_furniture [⟨"rug", 100, "Modern", ⟨10, 2/5⟩⟩] 3 3 = [] := by
  have hir : cellCount ((2 : ℚ)/5) = 0 :=
    cellCount_eq_zero (by norm_num) (by norm_num [grid_size])
  have hic : cellCount (10 : ℚ) = 20 := cellCount_eval 10 20 (by norm_num [grid_size])
  have hc3 : cellCount (3 : ℚ) = 6 := cellCount_eval 3 6 (by norm_num [grid_size])
  have hscan : scanPositions 6 6 20 0 = [] := by
    rw [scanPositions]
    norm_num
  have hfind : find_furniture_position ∅ 6 6 20 0 = none := by
    rw [find_furniture_position, hscan]
    rfl
  refine ⟨by norm_num [grid_size], ?_, ?_⟩
  · rw [hir]
    simp [blockCells]
  · simp only [position_furniture, List.mergeSort_singleton, hc3]
    rw [placeAux]
    rw [show (⟨"rug", 100, "Modern", ⟨10, 2/5⟩⟩ : FurnitureItem).dimensions.length = 10 from rfl,
      show (⟨"rug", 100, "Modern", ⟨10, 2/5⟩⟩ : FurnitureItem).dimensions.width = (2 : ℚ)/5 from rfl,
      hic, hir, hfind]
    simp [placeAux]

/-! ## C9: the conditional feature tags -/

/-- None of the style feature triples contains one of the three
conditional tags. -/
lemma style_features_no_tags (style : String) :
    "Complete room setup" ∉ style_features_table style ∧
    "Budget-friendly selection" ∉ style_features_table style ∧
    "Premium quality pieces" ∉ style_features_table style := by
  unfold style_features_table
  split <;> decide

/-- The catalog never lists the same furniture type twice for a room. -/
lemma catalog_types_nodup (room_type : String) :
    ((get_furniture_requirements room_type).map (fun r => r.type)).Nodup := by
  unfold get_furniture_requirements
  split <;> decide

/-- The types of the selected furniture form a sublist of the types of the
requirement list walked by the selection pass. -/
lemma add_required_types_sublist (style : String) (reqs : List Requirement) :
    ∀ (avail : ℚ),
      List.Sublist ((add_required_furniture style reqs avail).1.map (fun it => it.type))
        (reqs.map (fun r => r.type)) := by
  induction reqs with
  | nil => intro avail; simp [add_required_furniture]
  | cons r rest ih =>
    intro avail
    rw [add_required_furniture]
    by_cases h : avail ≥ r.min_area
    · rw [if_pos h]
      exact List.Sublist.cons₂ _ (ih _)
    · rw [if_neg h]
      exact List.Sublist.cons _ (ih _)

/-- C9: in every layout option generated from the catalog of its room
type, the tag "Complete room setup" is present exactly when at least 3
distinct furniture types were selected, "Budget-friendly selection"
exactly when cost < 2000, "Premium quality pieces" exactly when
cost > 5000; the two cost tags never occur together, and neither occurs
when 2000 ≤ cost ≤ 5000. -/
theorem claim_C9 (area : ℚ) (room_type style : String) (layout : Layout)
    (hmem : layout ∈ generate_room_layout area room_type style
      (get_furniture_requirements room_type)) :
    ("Complete room setup" ∈ layout.features ↔
      3 ≤ ((layout.furniture.map (fun item => item.type)).dedup).length) ∧
    ("Budget-friendly selection" ∈ layout.features ↔ layout.cost < 2000) ∧
    ("Premium quality pieces" ∈ layout.features ↔ 5000 < layout.cost) ∧
    ¬("Budget-friendly selection" ∈ layout.features ∧
      "Premium quality pieces" ∈ layout.features) ∧
    (2000 ≤ layout.cost → layout.cost ≤ 5000 →
      "Budget-friendly selection" ∉ layout.features ∧
      "Premium quality pieces" ∉ layout.features) := by
  have hnodup : (((add_required_furniture style (get_furniture_requirements room_type)
      (area * 0.7)).1.map (fun it => it.type))).Nodup :=
    (catalog_types_nodup room_type).sublist (add_required_types_sublist style _ _)
  have hded := List.dedup_eq_self.mpr hnodup
  obtain ⟨h1, h2, h3⟩ := style_features_no_tags style
  simp only [generate_room_layout, List.mem_map, List.mem_range] at hmem
  obtain ⟨i, hi, rfl⟩ := hmem
  simp only [generate_layout_features, List.mem_append, hded]
  split_ifs with hA hB hC <;> simp_all <;> omega

/-- Witness for C9 at a concrete input: the first layout generated for a
Modern Bedroom of area 20 satisfies the cost-tag equivalences. -/
theorem claim_C9_witness :
    ((generate_room_layout 20 "Bedroom" "Modern"
        (get_furniture_requirements "Bedroom")).headI ∈
      generate_room_layout 20 "Bedroom" "Modern" (get_furniture_requirements "Bedroom")) ∧
    ("Budget-friendly selection" ∈
        (generate_room_layout 20 "Bedroom" "Modern"
          (get_furniture_requirements "Bedroom")).headI.features ↔
      (generate_room_layout 20 "Bedroom" "Modern"
        (get_furniture_requirements "Bedroom")).headI.cost < 2000) := by
  have hm : (generate_room_layout 20 "Bedroom" "Modern"
      (get_furniture_requirements "Bedroom")).headI ∈
      generate_room_layout 20 "Bedroom" "Modern" (get_furniture_requirements "Bedroom") := by
    simp [generate_room_layout, show List.range 3 = [0, 1, 2] from rfl, List.headI]
  exact ⟨hm, (claim_C9 20 "Bedroom" "Modern" _ hm).2.1⟩
